import Mathlib

/-!
Verification of the client-side scripting layer of the matnaslou.github.io
personal website: the internationalization store (`Website/js/config.js`,
class `I18n`), the theme store (`js/theme.js`, class `ThemeManager`), and
the blog content-listing engine (class `BlogManager`).

Each JavaScript routine relevant to the checked properties is embedded as
an executable Lean definition.  Numbers that the source manipulates
exactly (page indices, hue integers, timestamps) are modelled as `ℤ`/`ℕ`;
the floating-point colour conversions are modelled by exact fraction
arithmetic (`Frac` below), which agrees with IEEE doubles on all inputs
appearing in the statements.  DOM effects are modelled by explicit state
fields (counters and logs), and JSON values by the inductive `JsVal`.
-/

namespace Site

/-! ## JSON values

A small model of the JavaScript values that occur in the translation
table: strings, objects (association lists with distinct keys, as parsed
from JSON), `null`, and `undefined` (the result of a missing property
lookup).  Numbers, booleans and arrays do not occur in the translation
data and are omitted. -/

inductive JsVal where
  | vstr (s : String)
  | vobj (fields : List (String × JsVal))
  | vnull
  | vundefined

/-- JavaScript truthiness for the values of `JsVal`:
`''` and `null` and `undefined` are falsy, every other string and every
object is truthy. -/
def JsVal.truthy : JsVal → Bool
  | .vstr s => !s.isEmpty
  | .vobj _ => true
  | .vnull => false
  | .vundefined => false

/-- `typeof v === 'object'` — true for objects and for `null`. -/
def JsVal.isObjType : JsVal → Bool
  | .vobj _ => true
  | .vnull => true
  | _ => false

/-- Field lookup on an association list (JSON object keys are unique). -/
def lookupField : List (String × JsVal) → String → JsVal
  | [], _ => .vundefined
  | (k', v) :: rest, k => if k' = k then v else lookupField rest k

/-- JavaScript property access `v[k]`: defined on objects, `undefined` on
everything else (property access on `null`/`undefined` would throw, but
`translate` only performs it under its truthy-object guard). -/
def JsVal.get : JsVal → String → JsVal
  | .vobj fields, k => lookupField fields k
  | _, _ => .vundefined

/-! ## String helpers mirroring the JavaScript string primitives -/

/-- Helper for `splitDots`: accumulates the current segment (reversed). -/
def splitDotsAux : List Char → List Char → List String
  | [], acc => [String.mk acc.reverse]
  | c :: cs, acc =>
      if c = '.' then String.mk acc.reverse :: splitDotsAux cs []
      else splitDotsAux cs (c :: acc)

/-- `key.split('.')` — like JavaScript, `"".split('.') = [""]` and empty
segments are kept. -/
def splitDots (s : String) : List String := splitDotsAux s.data []

/-- Lower-casing, `s.toLowerCase()` (ASCII case mapping suffices for the
strings handled here). -/
def lower (s : String) : String := ⟨s.data.map Char.toLower⟩

/-- Whether `pat` occurs at the head of `l`. -/
def headMatches : List Char → List Char → Bool
  | [], _ => true
  | _ :: _, [] => false
  | p :: ps, c :: cs => p = c && headMatches ps cs

/-- Whether `pat` occurs somewhere in `l` (at any position). -/
def occursIn : List Char → List Char → Bool
  | pat, [] => pat.isEmpty
  | pat, c :: cs => headMatches pat (c :: cs) || occursIn pat cs

/-- `hay.includes(needle)` — substring containment; the empty needle is
contained in every string, as in JavaScript. -/
def jsIncludes (hay needle : String) : Bool := occursIn needle.data hay.data

/-! ## Localization Store (`I18n`, Website/js/config.js)

State of the `I18n` singleton together with the externally observable
effects of its methods.  Callbacks registered with `subscribe` are opaque,
so only their number is kept; `applyCount` counts full
`applyTranslations()` DOM sweeps; `notifyLog` records, in call order, the
language code delivered to each observer by `notifyObservers()`. -/

structure I18nState where
  currentLang : String
  storedLang : Option String
  translations : JsVal
  observers : ℕ
  applyCount : ℕ
  domLang : String
  notifyLog : List String

/-- `this.translations[this.currentLang]`. -/
def tableFor (st : I18nState) : JsVal := st.translations.get st.currentLang

/-- The `for (const k of keys)` loop of `translate`: descend while the
current value is a truthy object; `none` means the loop exited early
(`return key`), `some v` is the value after consuming all segments. -/
def walk (v : JsVal) : List String → Option JsVal
  | [] => some v
  | k :: ks => if v.truthy && v.isObjType then walk (v.get k) ks else none

/-- `I18n.translate(key)` (config.js lines 115–128): split the key on
dots, walk the current language's table, return the key itself when the
walk exits early, and `value || key` at the end. -/
def translate (st : I18nState) (key : String) : JsVal :=
  match walk (tableFor st) (splitDots key) with
  | none => .vstr key
  | some v => if v.truthy then v else .vstr key

/-- Some path segment of `key` is missing from the current language's
table: either the walk aborts in the middle (a non-object met while
segments remain) or the final property access produced `undefined`. -/
def missingSeg (st : I18nState) (key : String) : Prop :=
  walk (tableFor st) (splitDots key) = none ∨
    walk (tableFor st) (splitDots key) = some .vundefined

/-- `key` resolves through the table to a truthy value — the cases in
which `translate` returns an actual translation rather than the key. -/
def resolves (st : I18nState) (key : String) : Bool :=
  match walk (tableFor st) (splitDots key) with
  | some v => v.truthy
  | none => false

/-- `I18n.setLanguage(lang)` (config.js lines 101–109): no-op unless the
code is `'en'` or `'pt'`; otherwise set the language, persist it, run a
full `applyTranslations()` sweep, update the buttons, and notify every
observer synchronously with the new current language. -/
def setLanguage (lang : String) (st : I18nState) : I18nState :=
  if lang ≠ "en" ∧ lang ≠ "pt" then st
  else
    { st with
      currentLang := lang
      storedLang := some lang
      applyCount := st.applyCount + 1
      domLang := lang
      notifyLog := st.notifyLog ++ List.replicate st.observers lang }

/-- A concrete `I18n` state with a small nested translation table, used
to evaluate the theorems below on explicit inputs. -/
def exI18n : I18nState :=
  { currentLang := "en"
    storedLang := none
    translations :=
      .vobj [("en", .vobj [("nav", .vobj [("home", .vstr "Home")])]),
             ("pt", .vobj [("nav", .vobj [("home", .vstr "Início")])])]
    observers := 2
    applyCount := 1
    domLang := "en"
    notifyLog := [] }

/-! ## Theme Store (`ThemeManager`, js/theme.js)

The colour conversions operate on IEEE doubles; they are modelled by
exact fraction arithmetic.  All quantities appearing in the statements
below (the eight preset hues at saturation 70 and lightness 50) produce
results far from every rounding boundary, so the exact values coincide
with the floating-point ones. -/

/-- An unreduced fraction `num / den`, with `den > 0` maintained by all
the operations below on their intended inputs. -/
structure Frac where
  num : ℤ
  den : ℤ

def Frac.ofInt (n : ℤ) : Frac := ⟨n, 1⟩

def Frac.add (a b : Frac) : Frac := ⟨a.num * b.den + b.num * a.den, a.den * b.den⟩

def Frac.sub (a b : Frac) : Frac := ⟨a.num * b.den - b.num * a.den, a.den * b.den⟩

def Frac.mul (a b : Frac) : Frac := ⟨a.num * b.num, a.den * b.den⟩

def Frac.div (a b : Frac) : Frac :=
  if b.num < 0 then ⟨-(a.num * b.den), a.den * (-b.num)⟩ else ⟨a.num * b.den, a.den * b.num⟩

def Frac.le (a b : Frac) : Bool := a.num * b.den ≤ b.num * a.den

def Frac.lt (a b : Frac) : Bool := a.num * b.den < b.num * a.den

def Frac.feq (a b : Frac) : Bool := a.num * b.den = b.num * a.den

/-- `Math.min(a, b)` on exact values. -/
def Frac.fmin (a b : Frac) : Frac := if Frac.le a b then a else b

/-- `Math.max(a, b)` on exact values. -/
def Frac.fmax (a b : Frac) : Frac := if Frac.le b a then a else b

def Frac.floor (a : Frac) : ℤ := Int.fdiv a.num a.den

/-- `Math.round(x)`: round half toward `+∞`. -/
def jround (a : Frac) : ℤ := Frac.floor (a.add ⟨1, 2⟩)

/-- JavaScript `a % b` for `a ≥ 0, b > 0` (where truncation equals
flooring), as used in `hslToHex` with `a = n + h/30 ≥ 0`, `b = 12`. -/
def jsMod (a b : Frac) : Frac := a.sub (b.mul (Frac.ofInt (Frac.floor (a.div b))))

/-- One hexadecimal digit, lower case, as produced by `toString(16)`. -/
def hexDigit (n : ℕ) : Char :=
  if n < 10 then Char.ofNat ('0'.toNat + n) else Char.ofNat ('a'.toNat + n - 10)

/-- `v.toString(16).padStart(2, '0')` for `0 ≤ v ≤ 255`. -/
def hex2 (v : ℤ) : String :=
  let m := v.toNat
  if m < 16 then String.mk ['0', hexDigit m] else String.mk [hexDigit (m / 16), hexDigit (m % 16)]

/-- `ThemeManager.hslToHex(h, s, l)` (theme.js lines 51–61). -/
def hslToHex (h s l : ℤ) : String :=
  let s' := Frac.div (Frac.ofInt s) (Frac.ofInt 100)
  let l' := Frac.div (Frac.ofInt l) (Frac.ofInt 100)
  let a := Frac.mul s' (Frac.fmin l' (Frac.sub (Frac.ofInt 1) l'))
  let f : ℤ → ℤ := fun n =>
    let k := jsMod (Frac.add (Frac.ofInt n) (Frac.div (Frac.ofInt h) (Frac.ofInt 30))) (Frac.ofInt 12)
    let clamp := Frac.fmax
      (Frac.fmin (Frac.fmin (Frac.sub k (Frac.ofInt 3)) (Frac.sub (Frac.ofInt 9) k)) (Frac.ofInt 1))
      (Frac.ofInt (-1))
    let color := Frac.sub l' (Frac.mul a clamp)
    jround (Frac.mul (Frac.ofInt 255) color)
  String.mk ('#' :: ((hex2 (f 0)).data ++ (hex2 (f 8)).data ++ (hex2 (f 4)).data))

/-- Value of one hexadecimal digit (both cases); only hex digits occur in
the `#rrggbb` strings this is applied to. -/
def hexDigitVal (c : Char) : ℕ :=
  if '0' ≤ c ∧ c ≤ '9' then c.toNat - '0'.toNat
  else if 'a' ≤ c ∧ c ≤ 'f' then c.toNat - 'a'.toNat + 10
  else if 'A' ≤ c ∧ c ≤ 'F' then c.toNat - 'A'.toNat + 10
  else 0

/-- `parseInt(hex.slice(i, i+2), 16)` — the two characters of `hex` at
positions `i` and `i+1`, read as a hexadecimal numeral. -/
def hexPairAt (hex : String) (i : ℕ) : ℤ :=
  match (hex.data.drop i).take 2 with
  | [c1, c2] => (16 * hexDigitVal c1 + hexDigitVal c2 : ℕ)
  | _ => 0

/-- `ThemeManager.hexToHsl(hex)` (theme.js lines 63–85), returning the
rounded `(h, s, l)` triple. -/
def hexToHsl (hex : String) : ℤ × ℤ × ℤ :=
  let r := Frac.div (Frac.ofInt (hexPairAt hex 1)) (Frac.ofInt 255)
  let g := Frac.div (Frac.ofInt (hexPairAt hex 3)) (Frac.ofInt 255)
  let b := Frac.div (Frac.ofInt (hexPairAt hex 5)) (Frac.ofInt 255)
  let mx := Frac.fmax r (Frac.fmax g b)
  let mn := Frac.fmin r (Frac.fmin g b)
  let l := Frac.div (Frac.add mx mn) (Frac.ofInt 2)
  if Frac.feq mx mn then
    (0, 0, jround (Frac.mul l (Frac.ofInt 100)))
  else
    let d := Frac.sub mx mn
    let s :=
      if Frac.lt ⟨1, 2⟩ l then Frac.div d (Frac.ofInt 2 |>.sub (Frac.add mx mn))
      else Frac.div d (Frac.add mx mn)
    let h :=
      if Frac.feq mx r then
        Frac.div (Frac.add (Frac.div (Frac.sub g b) d) (Frac.ofInt (if Frac.lt g b then 6 else 0))) (Frac.ofInt 6)
      else if Frac.feq mx g then
        Frac.div (Frac.add (Frac.div (Frac.sub b r) d) (Frac.ofInt 2)) (Frac.ofInt 6)
      else
        Frac.div (Frac.add (Frac.div (Frac.sub r g) d) (Frac.ofInt 4)) (Frac.ofInt 6)
    (jround (Frac.mul h (Frac.ofInt 360)), jround (Frac.mul s (Frac.ofInt 100)),
      jround (Frac.mul l (Frac.ofInt 100)))

/-- The hues of the eight fixed presets of `ThemeManager` (theme.js
lines 8–17): academic, forest, sunset, lavender, rose, ocean, gold,
slate. -/
def presetHues : List ℤ := [220, 150, 25, 270, 350, 195, 45, 215]

/-- Decimal `parseInt(s)`: skip leading whitespace, read an optional
sign, then the longest digit prefix; `none` models `NaN`.  (The `0x`
radix prefix of `parseInt` is not modelled; stored theme hues are decimal
numerals or garbage.) -/
def digitVal (c : Char) : Option ℕ :=
  if '0' ≤ c ∧ c ≤ '9' then some (c.toNat - '0'.toNat) else none

def leadDigits : List Char → List ℕ
  | [] => []
  | c :: cs =>
      match digitVal c with
      | some d => d :: leadDigits cs
      | none => []

def digitsToNat (ds : List ℕ) : ℕ := ds.foldl (fun a d => 10 * a + d) 0

def isSpaceChar (c : Char) : Bool := c = ' ' || c = '\t' || c = '\n' || c = '\r'

def jsParseInt (s : String) : Option ℤ :=
  match s.data.dropWhile isSpaceChar with
  | '-' :: rest =>
      let ds := leadDigits rest
      if ds.isEmpty then none else some (-(digitsToNat ds : ℤ))
  | '+' :: rest =>
      let ds := leadDigits rest
      if ds.isEmpty then none else some (digitsToNat ds : ℤ)
  | cs =>
      let ds := leadDigits cs
      if ds.isEmpty then none else some (digitsToNat ds : ℤ)

/-- The hue computed by the `ThemeManager` constructor (theme.js line
19): `parseInt(localStorage.getItem('themeHue')) || 220`.  A missing item
is `null`, whose `parseInt` is `NaN`; `NaN` and `0` are falsy, so both
fall back to `220`.  Any other parsed integer — in range or not — is used
as is. -/
def initHue (stored : Option String) : ℤ :=
  match stored with
  | none => 220
  | some s =>
      match jsParseInt s with
      | none => 220
      | some n => if n = 0 then 220 else n

/-! ## Content Listing Engine (`BlogManager`, blog module)

`getCurrentLang()` returns the i18n language, which is `'en'` or `'pt'`
in every state reachable through `setLanguage`; it is modelled by the
two-valued `Lang`.  Post dates enter the logic only through
`new Date(post.date)` subtraction, so they are modelled by their numeric
time value. -/

inductive Lang where
  | en
  | pt
deriving DecidableEq

/-- A per-language text pair (`{en: ..., pt: ...}` in the JSON). -/
structure LocStr where
  en : String
  pt : String
deriving DecidableEq

/-- `t[lang]` for `lang` produced by `getCurrentLang()`. -/
def LocStr.get (t : LocStr) : Lang → String
  | .en => t.en
  | .pt => t.pt

/-- A blog post, with the fields the listing logic reads.  `date` is the
numeric time value of `new Date(post.date)`. -/
structure Post where
  id : ℕ
  title : LocStr
  excerpt : LocStr
  category : String
  tags : List String
  date : ℤ
  published : Bool
deriving DecidableEq

/-- The fetched `data/blog-posts.json` document.  The `categories` and
`tags` members only feed the sidebar rendering and are not modelled. -/
structure BlogData where
  posts : List Post

/-- The mutable fields of a `BlogManager` instance, plus the i18n
language it observes through `getCurrentLang()`.  `postsPerPage` is the
constant 6. -/
structure BlogState where
  posts : List Post
  currentPage : ℤ
  currentCategory : String
  currentTag : Option String
  searchQuery : String
  lang : Lang
deriving DecidableEq

/-- The state after `init()` succeeds on `d`: only published posts are
kept, and the constructor defaults (page 1, category `'all'`, no tag,
empty query) are still in place. -/
def initState (d : BlogData) (l : Lang) : BlogState :=
  { posts := d.posts.filter (fun p => p.published)
    currentPage := 1
    currentCategory := "all"
    currentTag := none
    searchQuery := ""
    lang := l }

/-- The three conditional filter passes of `getFilteredPosts()`, in
source order: category (skipped when `'all'`), tag (skipped when
`currentTag` is falsy, i.e. `null` or `''`), and case-insensitive
substring search against the language-appropriate title or excerpt
(skipped when the query is falsy). -/
def filterPipeline (s : BlogState) : List Post :=
  let f1 :=
    if s.currentCategory ≠ "all" then s.posts.filter (fun p => p.category == s.currentCategory)
    else s.posts
  let f2 :=
    match s.currentTag with
    | some t => if t ≠ "" then f1.filter (fun p => p.tags.contains t) else f1
    | none => f1
  if s.searchQuery ≠ "" then
    let q := lower s.searchQuery
    f2.filter (fun p =>
      jsIncludes (lower (p.title.get s.lang)) q || jsIncludes (lower (p.excerpt.get s.lang)) q)
  else f2

/-- `BlogManager.getFilteredPosts()`: the filter passes followed by the
in-place stable sort `filtered.sort((a, b) => new Date(b.date) - new
Date(a.date))` — newest first, ties in input order. -/
def getFilteredPosts (s : BlogState) : List Post :=
  (filterPipeline s).mergeSort (fun a b => b.date ≤ a.date)

/-- `Array.prototype.slice(start, stop)`: negative indices count from the
end, and both indices are clamped to `[0, length]`. -/
def jsSlice {α : Type} (l : List α) (start stop : ℤ) : List α :=
  let n : ℤ := l.length
  let s := if start < 0 then max (n + start) 0 else min start n
  let e := if stop < 0 then max (n + stop) 0 else min stop n
  (l.take e.toNat).drop s.toNat

/-- `BlogManager.getPaginatedPosts()` (blog module lines 236–241):
`filtered.slice((currentPage - 1) * 6, (currentPage - 1) * 6 + 6)`. -/
def getPaginatedPosts (s : BlogState) : List Post :=
  jsSlice (getFilteredPosts s) ((s.currentPage - 1) * 6) ((s.currentPage - 1) * 6 + 6)

/-- `BlogManager.getTotalPages()` (blog module lines 243–245):
`Math.ceil(filtered.length / 6)`. -/
def getTotalPages (s : BlogState) : ℕ :=
  ((getFilteredPosts s).length + 5) / 6

/-- The debounced search-input handler (blog module lines 408–420):
store the query and reset to page 1. -/
def onSearchInput (q : String) (s : BlogState) : BlogState :=
  { s with searchQuery := q, currentPage := 1 }

/-- The category-link click handler (blog module lines 422–430): store
the clicked category, clear the tag, reset to page 1. -/
def onCategoryClick (c : String) (s : BlogState) : BlogState :=
  { s with currentCategory := c, currentTag := none, currentPage := 1 }

/-- The tag click handler: toggle the clicked tag (the handler fires only
for a truthy `data-tag`, so `t ≠ ""`), reset to page 1. -/
def onTagClick (t : String) (s : BlogState) : BlogState :=
  { s with currentTag := if s.currentTag = some t then none else some t, currentPage := 1 }

/-- The pagination click handler: jump to the page carried by the
clicked button's `data-page`. -/
def onPageClick (i : ℤ) (s : BlogState) : BlogState :=
  { s with currentPage := i }

/-- The language-change subscriber (`window.i18n.subscribe(() =>
this.render())`): the i18n language changes and the manager merely
re-renders — no filter field, in particular no page, is touched. -/
def onLangChange (l : Lang) (s : BlogState) : BlogState :=
  { s with lang := l }

/-- The page numbers reachable from state `s` through the pagination
control as last rendered for `s`: the control is rendered only when
`totalPages ≥ 2`; the numbered buttons `1..totalPages` are always
enabled; the prev/next buttons carry `currentPage ∓ 1` and are disabled
exactly at the first/last page. -/
def clickablePage (s : BlogState) (i : ℤ) : Prop :=
  2 ≤ getTotalPages s ∧
    ((1 ≤ i ∧ i ≤ (getTotalPages s : ℤ)) ∨
      (i = s.currentPage - 1 ∧ s.currentPage ≠ 1) ∨
      (i = s.currentPage + 1 ∧ s.currentPage ≠ (getTotalPages s : ℤ)))

/-- Blog states reachable from a successful `init()` through the four
user-interaction handlers (no language change). -/
inductive ReachableUI : BlogState → Prop where
  | init (d : BlogData) (l : Lang) : ReachableUI (initState d l)
  | cat (s : BlogState) (c : String) : ReachableUI s → ReachableUI (onCategoryClick c s)
  | tag (s : BlogState) (t : String) : ReachableUI s → ReachableUI (onTagClick t s)
  | search (s : BlogState) (q : String) : ReachableUI s → ReachableUI (onSearchInput q s)
  | page (s : BlogState) (i : ℤ) :
      ReachableUI s → clickablePage s i → ReachableUI (onPageClick i s)

/-! ## Concrete data used to evaluate the theorems on explicit inputs -/

/-- A published example post. -/
def exPost1 : Post :=
  { id := 1, title := ⟨"Hello", "Oi"⟩, excerpt := ⟨"intro", "inicio"⟩,
    category := "research", tags := ["ai"], date := 10, published := true }

/-- An unpublished example post. -/
def exPost2 : Post :=
  { id := 2, title := ⟨"Draft", "Rascunho"⟩, excerpt := ⟨"wip", "wip"⟩,
    category := "research", tags := ["ml"], date := 20, published := false }

/-- A small example dataset with one published and one unpublished post. -/
def exData : BlogData := ⟨[exPost1, exPost2]⟩

/-- A published post whose English title and excerpt contain the letter
`a` while its Portuguese title and excerpt do or do not, depending on
`tpt`. -/
def post4 (i : ℕ) (tpt : String) : Post :=
  { id := i, title := ⟨"alpha post", tpt⟩, excerpt := ⟨"essay", "texto"⟩,
    category := "research", tags := ["ai"], date := (i : ℤ), published := true }

/-- Seven published posts; in English all of them match the search query
`"a"`, in Portuguese only the first does. -/
def exData4 : BlogData :=
  ⟨[post4 1 "prato", post4 2 "titulo", post4 3 "titulo", post4 4 "titulo",
    post4 5 "titulo", post4 6 "titulo", post4 7 "titulo"]⟩

/-- `exData4` after the user searches for `"a"` while the language is
English: seven matches, two pages. -/
def c4s1 : BlogState := onSearchInput "a" (initState exData4 Lang.en)

/-- … then clicks the (rendered, enabled) page-2 button, then the
language is switched to Portuguese, which re-renders without touching the
page: only one match remains. -/
def c4s3 : BlogState := onLangChange Lang.pt (onPageClick 2 c4s1)

/-- A blog state with an active tag selection. -/
def exS3 : BlogState :=
  { posts := [], currentPage := 3, currentCategory := "all",
    currentTag := some "ai", searchQuery := "", lang := Lang.en }

/-! ## Helper lemmas -/

theorem length_getFilteredPosts (s : BlogState) :
    (getFilteredPosts s).length = (filterPipeline s).length :=
  (List.mergeSort_perm (filterPipeline s) _).length_eq

theorem getTotalPages_eq_pipeline (s : BlogState) :
    getTotalPages s = ((filterPipeline s).length + 5) / 6 := by
  unfold getTotalPages
  rw [length_getFilteredPosts]

theorem mem_getFilteredPosts {s : BlogState} {p : Post} :
    p ∈ getFilteredPosts s ↔ p ∈ filterPipeline s :=
  List.mem_mergeSort

theorem mem_filterPipeline {s : BlogState} {p : Post} :
    p ∈ filterPipeline s ↔ p ∈ s.posts ∧
      (s.currentCategory ≠ "all" → p.category = s.currentCategory) ∧
      (∀ t, s.currentTag = some t → t ≠ "" → t ∈ p.tags) ∧
      (s.searchQuery ≠ "" →
        (jsIncludes (lower (p.title.get s.lang)) (lower s.searchQuery) ||
          jsIncludes (lower (p.excerpt.get s.lang)) (lower s.searchQuery)) = true) := by
  by_cases hc : s.currentCategory = "all" <;> by_cases hq : s.searchQuery = "" <;>
    cases htag : s.currentTag with
  | none =>
      simp only [filterPipeline, htag, hc, hq]
      simp [List.mem_filter, htag, hc, hq]
      try tauto
  | some t =>
      by_cases ht : t = "" <;>
        · simp only [filterPipeline, htag, hc, hq]
          simp [List.mem_filter, htag, hc, hq, ht]
          try tauto

/-! ## Content Listing Engine theorems -/

/-- C1: for every loaded dataset (`init` keeps only published posts) and
every combination of page, category filter, tag filter, search query and
language, every post returned by `getFilteredPosts()` has
`published = true`. -/
theorem filtered_posts_published
    (d : BlogData) (page : ℤ) (cat : String) (tag : Option String) (q : String) (l : Lang)
    (p : Post) :
    p ∈ getFilteredPosts
      { initState d l with
        currentPage := page, currentCategory := cat, currentTag := tag, searchQuery := q } →
    p.published = true := by
  intro hp
  rw [mem_getFilteredPosts, mem_filterPipeline] at hp
  exact (List.mem_filter.mp hp.1).2

/-- C1 witness: on the example dataset with one published and one
unpublished post, the published one is in the filtered list and the
theorem yields its published flag. -/
theorem filtered_posts_published_witness : exPost1.published = true :=
  filtered_posts_published exData 1 "all" none "" Lang.en exPost1
    (by rw [mem_getFilteredPosts]; decide)

theorem jsSlice_natCast {α : Type} (l : List α) (a b : ℕ) :
    jsSlice l (a : ℤ) (b : ℤ) = (l.take b).drop a := by
  simp only [jsSlice]
  rw [if_neg (by omega), if_neg (by omega)]
  have ha : (min (a : ℤ) (l.length : ℤ)).toNat = min a l.length := by omega
  have hb : (min (b : ℤ) (l.length : ℤ)).toNat = min b l.length := by omega
  rw [ha, hb]
  have htake : l.take (min b l.length) = l.take b := by
    rcases le_total b l.length with h | h
    · rw [min_eq_left h]
    · rw [min_eq_right h, List.take_length, List.take_of_length_le h]
  rw [htake]
  rcases le_total a l.length with h | h
  · rw [min_eq_left h]
  · rw [min_eq_right h, List.drop_eq_nil_of_le, List.drop_eq_nil_of_le]
    · calc (l.take b).length ≤ l.length := by rw [List.length_take]; omega
        _ ≤ a := h
    · rw [List.length_take]; omega

theorem jsSlice_six_len {α : Type} (l : List α) (start : ℤ) :
    (jsSlice l start (start + 6)).length ≤ 6 := by
  unfold jsSlice
  simp only [List.length_drop, List.length_take]
  split_ifs <;> omega

theorem chunks_flatten :
    ∀ (k : ℕ) (l : List Post), l.length ≤ k * 6 →
      ((List.range k).map (fun i => (l.drop (i * 6)).take 6)).flatten = l := by
  intro k
  induction k with
  | zero =>
      intro l hl
      have : l = [] := List.eq_nil_of_length_eq_zero (by omega)
      simp [this]
  | succ k ih =>
      intro l hl
      rw [List.range_succ_eq_map, List.map_cons, List.map_map, List.flatten_cons]
      have hmap : (List.range k).map ((fun i => (l.drop (i * 6)).take 6) ∘ Nat.succ)
          = (List.range k).map (fun i => ((l.drop 6).drop (i * 6)).take 6) := by
        apply List.map_congr_left
        intro i _
        simp only [Function.comp]
        rw [List.drop_drop]
        have : Nat.succ i * 6 = 6 + i * 6 := by omega
        rw [this]
      rw [hmap, ih (l.drop 6) (by rw [List.length_drop]; omega)]
      simp only [Nat.zero_mul, List.drop_zero]
      exact List.take_append_drop 6 l

/-- C2: `getPaginatedPosts()` never returns more than 6 posts, and the
concatenation of the pages for `currentPage = 1, 2, ..., totalPages`, in
order, is exactly the list returned by `getFilteredPosts()`. -/
theorem pagination_partitions_filtered (s : BlogState) :
    (getPaginatedPosts s).length ≤ 6 ∧
      ((List.range (getTotalPages s)).map
        (fun i : ℕ => getPaginatedPosts { s with currentPage := (i : ℤ) + 1 })).flatten
        = getFilteredPosts s := by
  constructor
  · unfold getPaginatedPosts
    exact jsSlice_six_len _ _
  · have hpage : ∀ i ∈ List.range (getTotalPages s),
        getPaginatedPosts { s with currentPage := (i : ℤ) + 1 }
          = ((getFilteredPosts s).drop (i * 6)).take 6 := by
      intro i _
      unfold getPaginatedPosts
      have hfil : getFilteredPosts { s with currentPage := (i : ℤ) + 1 } = getFilteredPosts s := rfl
      rw [hfil]
      have h2 : ((i : ℤ) + 1 - 1) * 6 = ((i * 6 : ℕ) : ℤ) := by push_cast; ring
      rw [h2]
      have h3 : ((i * 6 : ℕ) : ℤ) + 6 = ((i * 6 + 6 : ℕ) : ℤ) := by push_cast; ring
      rw [h3, jsSlice_natCast, List.drop_take]
      have : i * 6 + 6 - i * 6 = 6 := by omega
      rw [this]
    rw [List.map_congr_left hpage]
    apply chunks_flatten
    unfold getTotalPages
    omega

/-- C2 witness: the pagination bound evaluated at a concrete state. -/
theorem pagination_partitions_filtered_witness :
    (getPaginatedPosts (initState exData Lang.en)).length ≤ 6 :=
  (pagination_partitions_filtered (initState exData Lang.en)).1

/-- C3 counterexample: selecting a category does NOT leave an active tag
selection in force — the handler sets `currentTag = null`.  Starting from
a state with tag `"ai"` active, clicking the `"economics"` category
clears it. -/
theorem category_click_clears_tag :
    exS3.currentTag = some "ai" ∧ (onCategoryClick "economics" exS3).currentTag ≠ some "ai" :=
  ⟨rfl, by decide⟩

/-- C3 (amended): every user-interaction handler resets the page to 1;
selecting a category clears the active tag (rather than leaving it in
force); selecting a tag or typing a query leaves the category unchanged,
and typing a query leaves the tag unchanged, so category and tag can both
be active simultaneously (tag selected after category) and the active
filters combine by logical AND. -/
theorem filter_handlers_amended (s : BlogState) (c t q : String) :
    (onCategoryClick c s).currentPage = 1 ∧
    (onTagClick t s).currentPage = 1 ∧
    (onSearchInput q s).currentPage = 1 ∧
    (onCategoryClick c s).currentTag = none ∧
    (onTagClick t s).currentCategory = s.currentCategory ∧
    (onSearchInput q s).currentCategory = s.currentCategory ∧
    (onSearchInput q s).currentTag = s.currentTag ∧
    (onTagClick t (onCategoryClick c s)).currentCategory = c ∧
    (onTagClick t (onCategoryClick c s)).currentTag = some t ∧
    (∀ p : Post, p ∈ getFilteredPosts s ↔ p ∈ s.posts ∧
      (s.currentCategory ≠ "all" → p.category = s.currentCategory) ∧
      (∀ tg, s.currentTag = some tg → tg ≠ "" → tg ∈ p.tags) ∧
      (s.searchQuery ≠ "" →
        (jsIncludes (lower (p.title.get s.lang)) (lower s.searchQuery) ||
          jsIncludes (lower (p.excerpt.get s.lang)) (lower s.searchQuery)) = true)) := by
  refine ⟨rfl, rfl, rfl, rfl, rfl, rfl, rfl, rfl, ?_, ?_⟩
  · simp [onTagClick, onCategoryClick]
  · intro p
    rw [mem_getFilteredPosts, mem_filterPipeline]

/-- C3 witness: the amended statement evaluated on the example state:
after a category click followed by a tag click both dimensions are
active. -/
theorem filter_handlers_amended_witness :
    (onTagClick "ml" (onCategoryClick "economics" exS3)).currentCategory = "economics" ∧
      (onTagClick "ml" (onCategoryClick "economics" exS3)).currentTag = some "ml" :=
  ⟨(filter_handlers_amended exS3 "economics" "ml" "q").2.2.2.2.2.2.2.1,
    (filter_handlers_amended exS3 "economics" "ml" "q").2.2.2.2.2.2.2.2.1⟩

/-- C4 counterexample: the invariant "page ∈ [1, totalPages] after any
render" fails in two reachable ways on the concrete dataset `exData4`.
First, search for `"a"` in English (7 matches, 2 pages), click the
rendered, enabled page-2 button, then switch the language to Portuguese:
the re-render keeps page 2 while only one match (one page) remains.
Second, a search with no matches leaves page 1 with totalPages 0. -/
theorem page_invariant_counterexample :
    clickablePage c4s1 2 ∧
      c4s3.currentPage = 2 ∧ getTotalPages c4s3 = 1 ∧
      ¬(c4s3.currentPage ≤ (getTotalPages c4s3 : ℤ)) ∧
      (onSearchInput "zzz" (initState exData4 Lang.en)).currentPage = 1 ∧
      getTotalPages (onSearchInput "zzz" (initState exData4 Lang.en)) = 0 := by
  have h1 : getTotalPages c4s1 = 2 := by
    rw [getTotalPages_eq_pipeline]
    decide
  have h3 : getTotalPages c4s3 = 1 := by
    rw [getTotalPages_eq_pipeline]
    decide
  have hz : getTotalPages (onSearchInput "zzz" (initState exData4 Lang.en)) = 0 := by
    rw [getTotalPages_eq_pipeline]
    decide
  refine ⟨⟨?_, Or.inl ⟨by norm_num, ?_⟩⟩, rfl, h3, ?_, rfl, hz⟩
  · rw [h1]
  · rw [h1]
    norm_num
  · rw [h3]
    decide

/-- C4 (amended): along every sequence of user interactions (category,
tag, search, and clicks on rendered enabled pagination buttons) from a
loaded state, the page stays within `[1, max(totalPages, 1)]` — when no
post matches, `totalPages` is 0 while the page is 1.  `totalPages` itself
is recomputed from the current filtered list on every call and never
cached.  A language change, by contrast, re-renders without touching the
page and can strand it above `totalPages` (see the counterexample). -/
theorem page_within_bounds_ui (s : BlogState) (h : ReachableUI s) :
    1 ≤ s.currentPage ∧ s.currentPage ≤ max 1 (getTotalPages s : ℤ) := by
  induction h with
  | init d l => exact ⟨le_refl 1, le_max_left 1 _⟩
  | cat s c hs ih => exact ⟨le_refl 1, le_max_left 1 _⟩
  | tag s t hs ih => exact ⟨le_refl 1, le_max_left 1 _⟩
  | search s q hs ih => exact ⟨le_refl 1, le_max_left 1 _⟩
  | page s i hs hclick ih =>
      obtain ⟨hT2, hcases⟩ := hclick
      obtain ⟨ih1, ih2⟩ := ih
      have hT : getTotalPages (onPageClick i s) = getTotalPages s := rfl
      have hpg : (onPageClick i s).currentPage = i := rfl
      rw [hpg, hT]
      rcases hcases with hcase | hcase | hcase <;> omega

/-- C4 witness: the amended bound at a freshly loaded state. -/
theorem page_within_bounds_ui_witness :
    1 ≤ (initState exData4 Lang.en).currentPage ∧
      (initState exData4 Lang.en).currentPage
        ≤ max 1 (getTotalPages (initState exData4 Lang.en) : ℤ) :=
  page_within_bounds_ui (initState exData4 Lang.en) (ReachableUI.init exData4 Lang.en)

/-! ## Localization Store theorems -/

/-- C5 counterexample: `translate` applied to the empty key returns the
empty string, so "never returns the empty string" fails as stated: on the
example table, `translate('')` walks into the language table, reads the
missing property `''`, and `value || key` yields `''` itself. -/
theorem translate_empty_key_returns_empty : translate exI18n "" = JsVal.vstr "" := rfl

/-- C5 (amended): `translate(key)` returns the literal key unchanged
whenever any path segment is missing, never throws (it is a total
function), and never returns the empty string for a nonempty key; the
empty key is the one input on which the result is the empty string. -/
theorem translate_missing_amended (st : I18nState) (key : String) :
    (missingSeg st key → translate st key = JsVal.vstr key) ∧
    (key ≠ "" → translate st key ≠ JsVal.vstr "") := by
  constructor
  · intro h
    unfold translate
    rcases h with h | h
    · rw [h]
    · rw [h]
      rfl
  · intro hk
    unfold translate
    rcases hw : walk (tableFor st) (splitDots key) with _ | v
    · simp [hk]
    · cases v with
      | vstr s =>
          simp only [JsVal.truthy]
          by_cases hs : s = ""
          · subst hs
            have h0 : ("" : String).isEmpty = true := rfl
            simp [h0, hk]
          · have he : s.isEmpty = false := by
              cases hemp : s.isEmpty
              · rfl
              · exact absurd ((String.isEmpty_iff s).mp hemp) hs
            simp [he, hs]
      | vobj fields => simp [JsVal.truthy]
      | vnull => simp [JsVal.truthy, hk]
      | vundefined => simp [JsVal.truthy, hk]

/-- C5 witness: on the example table, `nav.oops` has a missing final
segment and comes back verbatim, and the resolvable nonempty key
`nav.home` does not come back as the empty string. -/
theorem translate_missing_amended_witness :
    translate exI18n "nav.oops" = JsVal.vstr "nav.oops" ∧
      translate exI18n "nav.home" ≠ JsVal.vstr "" :=
  ⟨(translate_missing_amended exI18n "nav.oops").1 (Or.inr rfl),
    (translate_missing_amended exI18n "nav.home").2 (by decide)⟩

/-- C6: `translate` is the identity on strings that do not resolve to a
translation in the current language's table: if the key does not resolve
to a truthy value, the literal key comes back unchanged, so translating
an already-resolved literal again returns it unchanged. -/
theorem translate_unresolved_id (st : I18nState) (key : String) :
    resolves st key = false → translate st key = JsVal.vstr key := by
  intro h
  unfold translate
  unfold resolves at h
  rcases hw : walk (tableFor st) (splitDots key) with _ | v
  · rfl
  · rw [hw] at h
    have hv : v.truthy = false := h
    show (if v.truthy = true then v else JsVal.vstr key) = JsVal.vstr key
    rw [hv]
    rfl

/-- C6 witness: the literal `no.such` matches no key path of the example
table and is returned unchanged. -/
theorem translate_unresolved_id_witness :
    translate exI18n "no.such" = JsVal.vstr "no.such" :=
  translate_unresolved_id exI18n "no.such" rfl

/-- C7: `setLanguage` with any code other than `'en'` and `'pt'` returns
the state — current language, persisted language, observers, DOM text and
notification log — entirely unchanged. -/
theorem setLanguage_unrecognized_noop (st : I18nState) (lang : String) :
    lang ≠ "en" → lang ≠ "pt" → setLanguage lang st = st := by
  intro h1 h2
  unfold setLanguage
  rw [if_pos ⟨h1, h2⟩]

/-- C7 witness: `setLanguage('fr')` leaves the example state unchanged. -/
theorem setLanguage_unrecognized_noop_witness : setLanguage "fr" exI18n = exI18n :=
  setLanguage_unrecognized_noop exI18n "fr" (by decide) (by decide)

/-- C10: calling `setLanguage` with the already-current recognized code
is not a no-op: the code is persisted, a full translation sweep runs, and
every one of the `observers` subscribers is notified with that code. -/
theorem setLanguage_same_code_effects (st : I18nState) :
    st.currentLang = "en" ∨ st.currentLang = "pt" →
    (setLanguage st.currentLang st).storedLang = some st.currentLang ∧
    (setLanguage st.currentLang st).applyCount = st.applyCount + 1 ∧
    (setLanguage st.currentLang st).domLang = st.currentLang ∧
    (setLanguage st.currentLang st).notifyLog
      = st.notifyLog ++ List.replicate st.observers st.currentLang ∧
    (setLanguage st.currentLang st).currentLang = st.currentLang := by
  intro h
  unfold setLanguage
  have hno : ¬(st.currentLang ≠ "en" ∧ st.currentLang ≠ "pt") := by tauto
  rw [if_neg hno]
  exact ⟨rfl, rfl, rfl, rfl, rfl⟩

/-- C10 witness: on the example state (already `'en'`, two subscribers,
one previous sweep) the repeated `setLanguage('en')` persists `'en'`,
performs a second sweep, and notifies both subscribers with `'en'`. -/
theorem setLanguage_same_code_effects_witness :
    (setLanguage exI18n.currentLang exI18n).storedLang = some exI18n.currentLang ∧
    (setLanguage exI18n.currentLang exI18n).applyCount = exI18n.applyCount + 1 ∧
    (setLanguage exI18n.currentLang exI18n).domLang = exI18n.currentLang ∧
    (setLanguage exI18n.currentLang exI18n).notifyLog
      = exI18n.notifyLog ++ List.replicate exI18n.observers exI18n.currentLang ∧
    (setLanguage exI18n.currentLang exI18n).currentLang = exI18n.currentLang :=
  setLanguage_same_code_effects exI18n (Or.inl rfl)

/-! ## Theme Store theorems -/

/-- C8: every one of the 8 preset hues, converted to hex at saturation 70
and lightness 50 and back, returns a hue within 1 degree of the original
(in fact the round trip is exact on all eight). -/
theorem preset_roundtrip :
    ∀ h ∈ presetHues, ((hexToHsl (hslToHex h 70 50)).1 - h).natAbs ≤ 1 := by decide

/-- C8 witness: the round trip at the default preset hue 220. -/
theorem preset_roundtrip_witness :
    ((hexToHsl (hslToHex 220 70 50)).1 - 220).natAbs ≤ 1 :=
  preset_roundtrip 220 (by decide)

/-- C9 counterexample: a stored value of `"720"` parses to 720, which is
truthy and is used as the hue unchanged — it is neither replaced by the
default nor clamped into `[0, 359]`. -/
theorem storedHue_not_clamped :
    initHue (some "720") = 720 ∧ ¬(initHue (some "720") ≤ 359) := ⟨rfl, by decide⟩

/-- C9 (amended): a missing or non-numeric stored hue falls back to the
default 220, and so does the stored value `"0"` (zero is falsy); but any
other parsed integer — negative or above 359 included — is used as the
hue unchanged, with no clamping. -/
theorem storedHue_amended (s : String) (n : ℤ) :
    initHue none = 220 ∧
    (jsParseInt s = none → initHue (some s) = 220) ∧
    (jsParseInt s = some 0 → initHue (some s) = 220) ∧
    (jsParseInt s = some n → n ≠ 0 → initHue (some s) = n) := by
  refine ⟨rfl, ?_, ?_, ?_⟩
  · intro h
    simp only [initHue]
    rw [h]
  · intro h
    simp only [initHue]
    rw [h]
    rfl
  · intro h hn
    simp only [initHue]
    rw [h]
    show (if n = 0 then (220 : ℤ) else n) = n
    rw [if_neg hn]

/-- C9 witness: the well-formed stored value `"500"` is used as is, and
the garbage stored value `"oops"` falls back to 220. -/
theorem storedHue_amended_witness :
    initHue (some "500") = 500 ∧ initHue (some "oops") = 220 :=
  ⟨(storedHue_amended "500" 500).2.2.2 rfl (by decide),
    (storedHue_amended "oops" 0).2.1 rfl⟩

end Site
